import Mathlib

/-!
Verification of the DevTools resource update transaction coordinator
(`src/chrome/devtools-transactions.js`) and the debounce primitive from
`lib/utils.js`.

The development has three layers:

* Model A: a faithful embedding of the underscore-style `debounce`
  (trailing edge, `immediate` not passed), as a state machine plus an
  event-ordered driver.
* Model B: one run of the transaction pipeline (the promise chain built in
  `createTransaction`) as a pure function of its environment, emitting the
  ordered list of externally visible effects.
* Model C: a timed discrete-event simulation of a single transaction key:
  the debounce timer, the in-flight pipeline runs and the session patch
  backlog, interleaved with external requests and patch arrivals.

Time is modelled as `Nat` (milliseconds); `applyPatch` functions, resource
contents and patch snapshots are identified by opaque `Nat` ids.  Snapshot
comparison in the source is JavaScript identity (`===`) on the stored patch
value, so two snapshots are equal exactly when their ids are equal.
-/

namespace LiveStyle

/-- Error values built by `error(code, message)` in `lib/utils.js`: an
`Error` carrying a `code` string. -/
structure Err where
  code : String
  message : String
deriving DecidableEq, Repr

/-- Embedding of `error` from `lib/utils.js`. -/
def error (code : String) (message : String) : Err :=
  { code := code, message := message }

/-- An `applyPatch` callback is identified by an opaque id. -/
abbrev Arg := Nat

/-- Resource content, opaque. -/
abbrev Content := Nat

/-- A patch snapshot value; identity comparison in the source becomes
equality of ids. -/
abbrev Snap := Nat

/-- The closure state of one `debounce(func, wait)` instance from
`lib/utils.js`: `timeout` is the absolute time at which the scheduled
`later` callback will fire (`none` when no timer is pending), `timestamp`
is the time of the most recent call, `args` the most recently supplied
argument (`none` once cleared).  `context` and `result` play no role for
the claims and are omitted. -/
structure DebSt where
  timeout : Option Nat
  timestamp : Nat
  args : Option Arg
deriving DecidableEq, Repr

/-- A call to the debounced function at time `t` with argument `a`
(the returned closure in `debounce`, with `immediate` falsy, so
`callNow` is false): record the timestamp and argument, and if no timer
is pending schedule `later` to fire `wait` from now. -/
def debCall (wait : Nat) (s : DebSt) (t : Nat) (a : Arg) : DebSt :=
  { timestamp := t
    args := some a
    timeout :=
      match s.timeout with
      | none => some (t + wait)
      | some f => some f }

/-- The `later` callback firing at time `f`.  `last = Date.now() -
timestamp`; in the source the re-arm branch requires `last < wait && last
>= 0`, and `last >= 0` always holds here because calls are processed in
time order, so `timestamp <= f`.  If the quiet period has not yet elapsed
the timer is re-armed for `wait - last` from now; otherwise `timeout` is
cleared, `func` is invoked with the saved argument and (since the pipeline
body does not synchronously re-arm the timer) `args` is cleared.  Returns
the new state and the argument `func` was invoked with, if it was. -/
def debFire (wait : Nat) (s : DebSt) (f : Nat) : DebSt × Option Arg :=
  let last := f - s.timestamp
  if last < wait then
    ({ s with timeout := some (f + (wait - last)) }, none)
  else
    ({ timeout := none, timestamp := s.timestamp, args := none }, s.args)

/-- Event-ordered execution of one debounce instance against a
time-sorted list of calls: the next processed event is either the next
call or the pending timer fire, whichever is earlier (a call at the same
time as a fire is processed first).  Returns the list of `(time,
argument)` invocations of the wrapped `func`.  `fuel` bounds the number of
processed events. -/
def debRun (wait : Nat) : Nat → DebSt → List (Nat × Arg) → List (Nat × Arg)
  | 0, _, _ => []
  | Nat.succ fuel, s, calls =>
    match s.timeout, calls with
    | none, [] => []
    | none, (t, a) :: rest => debRun wait fuel (debCall wait s t a) rest
    | some f, [] =>
      match debFire wait s f with
      | (s2, none) => debRun wait fuel s2 []
      | (s2, some a2) => (f, a2) :: debRun wait fuel s2 []
    | some f, (t, a) :: rest =>
      if t ≤ f then
        debRun wait fuel (debCall wait s t a) rest
      else
        match debFire wait s f with
        | (s2, none) => debRun wait fuel s2 ((t, a) :: rest)
        | (s2, some a2) => (f, a2) :: debRun wait fuel s2 ((t, a) :: rest)

/-- A burst of calls starting no earlier than `p`: each call arrives no
earlier than the previous one and strictly less than `wait` after it. -/
def chainFrom (wait p : Nat) : List (Nat × Arg) → Bool
  | [] => true
  | (t, _) :: rest => (decide (p ≤ t) && decide (t < p + wait)) && chainFrom wait t rest

/-- The debounce quiet period used by `createTransaction`
(`updateDebounce = 1000`). -/
def updateDebounce : Nat := 1000

/-- The deadline passed to `rejectOnTimeout` in the apply race
(`rejectOnTimeout(10000)`). -/
def applyDeadline : Nat := 10000

/-- Embedding of `rejectOnTimeout(timeout)`: a promise that rejects at
`timeout` from now with an `ETIMEOUT` error (the source default for
`timeout` is 1000; the pipeline passes 10000).  Modelled as the pair of
the settle delay and the rejection value. -/
def rejectOnTimeout (timeout : Nat) : Nat × Err :=
  (timeout, error "ETIMEOUT" "Timeout")

/-- Embedding of `cancel()`: a rejection with the `ECANCEL` error. -/
def cancelErr : Err := error "ECANCEL" "Transaction was cancelled"

/-- The settled value of `applyPatch(content, snapshot)`: either the
`{content}` response object or a rejection. -/
structure ApplyResponse where
  content : Content
deriving DecidableEq, Repr

/-- The settled outcome of `Promise.race([applyPatch(content, snapshot),
rejectOnTimeout(deadline)])`: the race settles with whichever side settles
first.  `applyDuration` is the settle delay of `applyPatch`; if it exceeds
the deadline the race rejects with the `ETIMEOUT` error and the late
settlement of `applyPatch` is ignored. -/
def raceApplyTimeout (applyDuration : Nat) (applyResult : Except Err ApplyResponse)
    (deadline : Nat) : Except Err ApplyResponse :=
  if applyDuration ≤ deadline then applyResult
  else Except.error (rejectOnTimeout deadline).2

/-- A session entry of the store: `patches` is the per-resource backlog
map.  Modelled from the spec: the store itself (reducer for
`SESSION.RESET_RESOURCE_PATCHES`) is not under `src/`; per the spec a
`PatchSnapshot` is an opaque identity-comparable value and an empty
backlog yields NONE, so the backlog is a map holding an entry exactly for
resources with pending patches. -/
structure Session where
  patches : List (String × Snap)
deriving DecidableEq, Repr

/-- The relevant slice of the global store: `sessions` keyed by tab id. -/
structure StoreState where
  sessions : List (Nat × Session)
deriving DecidableEq, Repr

/-- Embedding of `getResourcePatches(tabId, url)`:
`session && session.patches.get(url) || null` — `none` when the session is
absent or the backlog map has no entry for `url`, otherwise the stored
snapshot value. -/
def getResourcePatches (store : StoreState) (tabId : Nat) (url : String) : Option Snap :=
  match store.sessions.lookup tabId with
  | none => none
  | some session => session.patches.lookup url

/-- Externally visible effects of one pipeline run, in program order. -/
inductive Evt
  | dispatchReset
  | writeCall (content : Content)
  | logError (e : Err)
  | restartCall
  | deleteHandle
deriving DecidableEq, Repr

/-- The environment one pipeline run executes against: the settled
results of the external operations, and the snapshot values
`getResourcePatches` returns at the three points the pipeline reads it. -/
structure RunEnv where
  readResult : Except Err Content
  snapAfterRead : Option Snap
  applyDuration : Nat
  applyResult : Except Err ApplyResponse
  snapAfterApply : Option Snap
  writeResult : Except Err Unit
  snapAtRecheck : Option Snap
deriving Repr

/-- The body of one pipeline run: `devtools.getContent(...)` followed by
the two `then` handlers of `createTransaction`, before the `catch`.
Returns the settled outcome of that prefix of the chain together with the
store/resource effects it performed, in order.  Mirrors the source:
read; capture `snapshot`, abort with `cancel()` when it is none; race
apply against the 10000 timeout; re-capture `curSnapshot`, abort when
none; if identical to `snapshot`, dispatch `RESET_RESOURCE_PATCHES` and
then call `devtools.update`, else skip the write and succeed. -/
def runBody (env : RunEnv) : Except Err Unit × List Evt :=
  match env.readResult with
  | Except.error e => (Except.error e, [])
  | Except.ok _ =>
    match env.snapAfterRead with
    | none => (Except.error cancelErr, [])
    | some snapshot =>
      match raceApplyTimeout env.applyDuration env.applyResult applyDeadline with
      | Except.error e => (Except.error e, [])
      | Except.ok response =>
        match env.snapAfterApply with
        | none => (Except.error cancelErr, [])
        | some curSnapshot =>
          if snapshot = curSnapshot then
            match env.writeResult with
            | Except.error e =>
              (Except.error e, [Evt.dispatchReset, Evt.writeCall response.content])
            | Except.ok _ =>
              (Except.ok (), [Evt.dispatchReset, Evt.writeCall response.content])
          else (Except.ok (), [])

/-- The `catch` handler: a non-`ECANCEL` error is logged, an `ECANCEL`
error is swallowed silently; in both cases the handler returns normally,
recovering the chain. -/
def catchStep (r : Except Err Unit) : List Evt :=
  match r with
  | Except.error e => if e.code ≠ "ECANCEL" then [Evt.logError e] else []
  | Except.ok _ => []

/-- The final `then`: re-query the patches; restart the transaction when
some are pending, otherwise delete the handle from the registry. -/
def completionRecheck (patches : Option Snap) : Evt :=
  match patches with
  | some _ => Evt.restartCall
  | none => Evt.deleteHandle

/-- The full effect trace of one pipeline run. -/
def runPipeline (env : RunEnv) : List Evt :=
  (runBody env).2 ++ catchStep (runBody env).1 ++ [completionRecheck env.snapAtRecheck]

/-- The settled value of the whole chain as observed past the `catch`: the
`catch` handler returns `undefined` in both of its branches, so the chain
is always recovered and the final `then` settles fulfilled.  No rejection
escapes to the caller of `requestUpdateTransaction`. -/
def pipelineOutcome (env : RunEnv) : Except Err Unit :=
  match (runBody env).1 with
  | Except.error _ => Except.ok ()
  | Except.ok _ => Except.ok ()

/-- Effect of a run trace on the resource's patch backlog.  Modelled from
the spec: dispatching `RESET_RESOURCE_PATCHES` clears the consumed backlog
(the reducer is not under `src/`); no other pipeline effect touches the
backlog, and the pipeline contains no compensating action that could
restore drained patches. -/
def backlogAfter : Option Snap → List Evt → Option Snap
  | b, [] => b
  | _, Evt.dispatchReset :: rest => backlogAfter none rest
  | b, _ :: rest => backlogAfter b rest

/-- External behaviour of the collaborators for the run with a given id in
the timed simulation: settle delays and settled values of read, apply and
write. -/
structure RunBehavior where
  readDur : Nat
  readResult : Except Err Content
  applyDur : Nat
  applyResult : Except Err ApplyResponse
  writeDur : Nat
  writeResult : Except Err Unit
deriving Repr

/-- The suspension point an in-flight run is currently awaiting, with the
absolute time it settles.  `applying` remembers the snapshot captured
after the read. -/
inductive Stage
  | reading (doneAt : Nat)
  | applying (doneAt : Nat) (snapshot : Snap)
  | writing (doneAt : Nat)
deriving DecidableEq, Repr

/-- One in-flight pipeline run for the key. -/
structure Run where
  id : Nat
  fn : Arg
  stage : Stage
deriving DecidableEq, Repr

/-- Observable events recorded by the timed simulation. -/
inductive SysEvt
  | requested (fn : Arg)
  | patchAdded (s : Snap)
  | runStarted (id : Nat) (fn : Arg)
  | dispatched
  | writeCalled (id : Nat)
  | errorLogged (id : Nat) (e : Err)
  | restarted (id : Nat) (fn : Arg)
  | handleDeleted
deriving DecidableEq, Repr

/-- State of the timed simulation for one transaction key: whether the
registry currently holds a handle for the key, the handle's debounce
closure state, the in-flight runs, a counter for run ids, the session's
patch backlog for this resource (as read by `getResourcePatches`), and the
event log. -/
structure SysState where
  hasHandle : Bool
  deb : DebSt
  runs : List Run
  nextRunId : Nat
  backlog : Option Snap
  log : List (Nat × SysEvt)
deriving DecidableEq, Repr

/-- External stimuli: a call to the exposed entry point, or the arrival of
new patches (external producers replace the stored patch value, giving it
a fresh identity). -/
inductive ExtEvt
  | request (fn : Arg)
  | addPatch (s : Snap)
deriving DecidableEq, Repr

/-- The exposed entry point (default export): if the registry has no
handle for the key, `createTransaction` installs a fresh debounced
closure; then the handle is invoked with `applyPatch`, which is a
`debCall` on its closure state.  No pipeline run is started
synchronously. -/
def requestUpdateTransaction (st : SysState) (t : Nat) (fn : Arg) : SysState :=
  let st1 :=
    if st.hasHandle then st
    else { st with hasHandle := true, deb := { timeout := none, timestamp := 0, args := none } }
  { st1 with
      deb := debCall updateDebounce st1.deb t fn
      log := st1.log ++ [(t, SysEvt.requested fn)] }

/-- The final `then` of a finished run at time `t`: re-query the backlog;
if patches are pending call the debounced `transaction` again with the
same `applyPatch` the run used, otherwise remove the handle from the
registry.  The caller has already removed the run from the in-flight
list. -/
def completionStep (st : SysState) (t : Nat) (r : Run) : SysState :=
  match st.backlog with
  | some _ =>
    { st with
        deb := debCall updateDebounce st.deb t r.fn
        log := st.log ++ [(t, SysEvt.restarted r.id r.fn)] }
  | none =>
    { st with
        hasHandle := false
        log := st.log ++ [(t, SysEvt.handleDeleted)] }

/-- The `catch` handler followed by the final `then`, executed at time `t`
when the run's chain rejected with `e`: log unless the code is `ECANCEL`,
then run the completion recheck. -/
def catchThenComplete (st : SysState) (t : Nat) (r : Run) (e : Err) : SysState :=
  let st1 :=
    if e.code ≠ "ECANCEL" then { st with log := st.log ++ [(t, SysEvt.errorLogged r.id e)] }
    else st
  completionStep st1 t r

/-- Settling of the suspension point run `r` was awaiting, at time `t`
(`r` already removed from `st.runs`).  Mirrors the `then` handlers of the
source chain; reads of `getResourcePatches` become reads of the current
backlog. -/
def stageStep (behav : Nat → RunBehavior) (st : SysState) (t : Nat) (r : Run) : SysState :=
  match r.stage with
  | Stage.reading _ =>
    match (behav r.id).readResult with
    | Except.error e => catchThenComplete st t r e
    | Except.ok _ =>
      match st.backlog with
      | none => catchThenComplete st t r cancelErr
      | some snapshot =>
        { st with
            runs := st.runs ++
              [{ r with stage := Stage.applying (t + min (behav r.id).applyDur applyDeadline) snapshot }] }
  | Stage.applying _ snapshot =>
    match raceApplyTimeout (behav r.id).applyDur (behav r.id).applyResult applyDeadline with
    | Except.error e => catchThenComplete st t r e
    | Except.ok _ =>
      match st.backlog with
      | none => catchThenComplete st t r cancelErr
      | some curSnapshot =>
        if snapshot = curSnapshot then
          { st with
              backlog := none
              runs := st.runs ++ [{ r with stage := Stage.writing (t + (behav r.id).writeDur) }]
              log := st.log ++ [(t, SysEvt.dispatched), (t, SysEvt.writeCalled r.id)] }
        else completionStep st t r
  | Stage.writing _ =>
    match (behav r.id).writeResult with
    | Except.error e => catchThenComplete st t r e
    | Except.ok _ => completionStep st t r

/-- The settle time of the suspension point a run awaits. -/
def stageTime : Stage → Nat
  | Stage.reading d => d
  | Stage.applying d _ => d
  | Stage.writing d => d

/-- The in-flight run with the earliest settle time (earlier-listed run
preferred on ties). -/
def earliestRun (runs : List Run) : Option Run :=
  runs.foldl
    (fun acc r =>
      match acc with
      | none => some r
      | some b => if stageTime r.stage < stageTime b.stage then some r else acc)
    none

/-- Scheduler choice for the next event. -/
inductive Choice
  | input
  | fire
  | run (id : Nat)
deriving DecidableEq, Repr

/-- One step of the timed simulation: process the earliest pending event
among the next external stimulus, the debounce timer and the earliest
in-flight run settlement (ties resolved in that order), or `none` when
nothing is pending. -/
def simStep (behav : Nat → RunBehavior) (st : SysState) (ext : List (Nat × ExtEvt)) :
    Option (SysState × List (Nat × ExtEvt)) :=
  let cand : List (Nat × Choice) :=
    (match ext with
     | (t, _) :: _ => [(t, Choice.input)]
     | [] => []) ++
    (match st.deb.timeout with
     | some f => [(f, Choice.fire)]
     | none => []) ++
    (match earliestRun st.runs with
     | some r => [(stageTime r.stage, Choice.run r.id)]
     | none => [])
  match cand.foldl
      (fun acc c =>
        match acc with
        | none => some c
        | some b => if c.1 < b.1 then some c else acc)
      none with
  | none => none
  | some (t, Choice.input) =>
    match ext with
    | [] => none
    | (_, ExtEvt.request fn) :: rest => some (requestUpdateTransaction st t fn, rest)
    | (_, ExtEvt.addPatch s) :: rest =>
      some ({ st with backlog := some s, log := st.log ++ [(t, SysEvt.patchAdded s)] }, rest)
  | some (t, Choice.fire) =>
    match debFire updateDebounce st.deb t with
    | (deb2, none) => some ({ st with deb := deb2 }, ext)
    | (deb2, some fn) =>
      some
        ({ st with
            deb := deb2
            runs := st.runs ++
              [{ id := st.nextRunId, fn := fn
                 stage := Stage.reading (t + (behav st.nextRunId).readDur) }]
            nextRunId := st.nextRunId + 1
            log := st.log ++ [(t, SysEvt.runStarted st.nextRunId fn)] }, ext)
  | some (t, Choice.run i) =>
    match st.runs.find? (fun r => r.id = i) with
    | none => none
    | some r =>
      some (stageStep behav { st with runs := st.runs.filter (fun q => q.id ≠ i) } t r, ext)

/-- Run the simulation for at most `fuel` events. -/
def simulate (behav : Nat → RunBehavior) : Nat → SysState → List (Nat × ExtEvt) → SysState
  | 0, st, _ => st
  | Nat.succ fuel, st, ext =>
    match simStep behav st ext with
    | none => st
    | some (st2, ext2) => simulate behav fuel st2 ext2

/-- The initial simulation state: empty registry, no runs, empty
backlog. -/
def initState : SysState :=
  { hasHandle := false
    deb := { timeout := none, timestamp := 0, args := none }
    runs := []
    nextRunId := 0
    backlog := none
    log := [] }

/-- Collaborator behaviour for the concurrency scenario: every run reads
for 100, applies successfully for 5000 and writes for 100. -/
def behavC1 : Nat → RunBehavior := fun _ =>
  { readDur := 100
    readResult := Except.ok 50
    applyDur := 5000
    applyResult := Except.ok { content := 60 }
    writeDur := 100
    writeResult := Except.ok () }

/-- External stimuli for the concurrency scenario: patches and a request
at time 0, a second request at 1500 while the first run is applying, new
patches at 2000. -/
def extC1 : List (Nat × ExtEvt) :=
  [(0, ExtEvt.addPatch 1), (0, ExtEvt.request 7),
   (1500, ExtEvt.request 7), (2000, ExtEvt.addPatch 2)]

/-- Collaborator behaviour for the restart-timing scenario: read 100,
apply 200, write 50, all successful. -/
def behavC2 : Nat → RunBehavior := fun _ =>
  { readDur := 100
    readResult := Except.ok 50
    applyDur := 200
    applyResult := Except.ok { content := 60 }
    writeDur := 50
    writeResult := Except.ok () }

/-- External stimuli for the restart-timing scenario: patches and a
request at 0, new patches at 1200 while the first run is applying. -/
def extC2 : List (Nat × ExtEvt) :=
  [(0, ExtEvt.addPatch 1), (0, ExtEvt.request 7), (1200, ExtEvt.addPatch 2)]

/-- Predicate picking run-start events from the log. -/
def isRunStarted : Nat × SysEvt → Bool
  | (_, SysEvt.runStarted _ _) => true
  | _ => false

/-- A sample store for evaluating the patch accessor: session 1 has a
backlog entry for `a.css`, session 2 has an empty backlog. -/
def storeEx : StoreState :=
  { sessions := [(1, { patches := [("a.css", 5)] }), (2, { patches := [] })] }

/-- A sample environment in which the post-apply snapshot differs from
the pre-apply one. -/
def envStale : RunEnv :=
  { readResult := Except.ok 50
    snapAfterRead := some 1
    applyDuration := 200
    applyResult := Except.ok { content := 60 }
    snapAfterApply := some 2
    writeResult := Except.ok ()
    snapAtRecheck := some 2 }

/-- A sample environment in which `applyPatch` only settles (successfully)
after the 10000 deadline. -/
def envLate : RunEnv :=
  { readResult := Except.ok 50
    snapAfterRead := some 1
    applyDuration := 20000
    applyResult := Except.ok { content := 60 }
    snapAfterApply := some 1
    writeResult := Except.ok ()
    snapAtRecheck := none }

/-- A sample environment in which the snapshot captured right after the
read is already NONE. -/
def envNoPatch : RunEnv :=
  { readResult := Except.ok 50
    snapAfterRead := none
    applyDuration := 200
    applyResult := Except.ok { content := 60 }
    snapAfterApply := none
    writeResult := Except.ok ()
    snapAtRecheck := none }

/-- A sample environment in which the write rejects with a generic
disk-full error while everything else succeeds. -/
def envDiskFull : RunEnv :=
  { readResult := Except.ok 50
    snapAfterRead := some 1
    applyDuration := 200
    applyResult := Except.ok { content := 60 }
    snapAfterApply := some 1
    writeResult := Except.error (error "ENOSPC" "disk full")
    snapAtRecheck := none }

/-- A sample state whose handle has a pending debounce timer. -/
def stPending : SysState :=
  { hasHandle := true
    deb := { timeout := some 400, timestamp := 0, args := some 3 }
    runs := []
    nextRunId := 1
    backlog := some 1
    log := [] }

/-- A sample state at a completion recheck that finds patches pending,
with no timer armed. -/
def stRecheck : SysState :=
  { hasHandle := true
    deb := { timeout := none, timestamp := 0, args := none }
    runs := []
    nextRunId := 1
    backlog := some 2
    log := [] }

theorem debRun_none_nil (wait fuel p : Nat) (oa : Option Arg) :
    debRun wait fuel { timeout := none, timestamp := p, args := oa } [] = [] := by
  cases fuel <;> rfl

theorem backlogAfter_none (l : List Evt) : backlogAfter none l = none := by
  induction l with
  | nil => rfl
  | cons e rest ih => cases e <;> simpa [backlogAfter] using ih

theorem runBody_no_logError (env : RunEnv) (x : Err) :
    Evt.logError x ∉ (runBody env).2 := by
  unfold runBody
  repeat' split
  all_goals simp

/-- Processing a whole burst from a state whose timer is pending: as long
as each remaining call arrives less than `wait` after the recorded
timestamp of the previous one, the wrapped function is invoked exactly
once, a full quiet period after the last call, with that call's
argument. -/
theorem debRun_burst (wait : Nat) :
    ∀ (cs : List (Nat × Arg)) (fuel p f : Nat) (a : Arg),
      p ≤ f → f ≤ p + wait →
      chainFrom wait p cs = true →
      2 * cs.length + 2 ≤ fuel →
      debRun wait fuel { timeout := some f, timestamp := p, args := some a } cs =
        [((cs.getLastD (p, a)).1 + wait, (cs.getLastD (p, a)).2)] := by
  intro cs
  induction cs with
  | nil =>
    intro fuel p f a hpf hfpw _ hfuel
    obtain ⟨m, rfl⟩ : ∃ m, fuel = m + 2 := ⟨fuel - 2, by omega⟩
    by_cases hlt : f - p < wait
    · have harm : f + (wait - (f - p)) = p + wait := by omega
      have hstep :
          debRun wait (m + 2) { timeout := some f, timestamp := p, args := some a } [] =
            debRun wait (m + 1)
              { timeout := some (p + wait), timestamp := p, args := some a } [] := by
        simp [debRun, debFire, hlt, harm]
      rw [hstep]
      have hinv : ¬ ((p + wait) - p < wait) := by omega
      have hstep2 :
          debRun wait (m + 1)
              { timeout := some (p + wait), timestamp := p, args := some a } [] =
            (p + wait, a) ::
              debRun wait m { timeout := none, timestamp := p, args := none } [] := by
        simp [debRun, debFire, hinv]
      rw [hstep2, debRun_none_nil]
      simp
    · have hf : f = p + wait := by omega
      subst hf
      have hstep :
          debRun wait (m + 2) { timeout := some (p + wait), timestamp := p, args := some a } [] =
            (p + wait, a) ::
              debRun wait (m + 1) { timeout := none, timestamp := p, args := none } [] := by
        simp [debRun, debFire, hlt]
      rw [hstep, debRun_none_nil]
      simp
  | cons hd rest ih =>
    obtain ⟨t, b⟩ := hd
    intro fuel p f a hpf hfpw hc hfuel
    simp only [chainFrom, Bool.and_eq_true, decide_eq_true_eq] at hc
    obtain ⟨⟨hpt, htw⟩, hcrest⟩ := hc
    obtain ⟨m, rfl⟩ : ∃ m, fuel = m + 1 := ⟨fuel - 1, by omega⟩
    rw [List.getLastD_cons]
    by_cases htf : t ≤ f
    · have hstep :
          debRun wait (m + 1) { timeout := some f, timestamp := p, args := some a }
              ((t, b) :: rest) =
            debRun wait m { timeout := some f, timestamp := t, args := some b } rest := by
        simp [debRun, debCall, htf]
      rw [hstep]
      exact ih m t f b htf (by omega) hcrest (by simp at hfuel; omega)
    · push_neg at htf
      have hfp : f - p < wait := by omega
      have harm : f + (wait - (f - p)) = p + wait := by omega
      have hstep :
          debRun wait (m + 1) { timeout := some f, timestamp := p, args := some a }
              ((t, b) :: rest) =
            debRun wait m { timeout := some (p + wait), timestamp := p, args := some a }
              ((t, b) :: rest) := by
        simp [debRun, debFire, hfp, harm, Nat.not_le.mpr htf]
      rw [hstep]
      obtain ⟨m2, rfl⟩ : ∃ m2, m = m2 + 1 := ⟨m - 1, by simp at hfuel; omega⟩
      have htp : t ≤ p + wait := by omega
      have hstep2 :
          debRun wait (m2 + 1) { timeout := some (p + wait), timestamp := p, args := some a }
              ((t, b) :: rest) =
            debRun wait m2 { timeout := some (p + wait), timestamp := t, args := some b }
              rest := by
        simp [debRun, debCall, htp]
      rw [hstep2]
      exact ih m2 t (p + wait) b htp (by omega) hcrest (by simp at hfuel; omega)

/-- Claim C3: for every burst of one or more requests to the same key in
which each request arrives less than the quiet period (1000 time units)
after the previous one, the debounced transaction body is invoked exactly
once, it is invoked exactly one quiet period after the last request of the
burst, and it receives the `applyPatchFn` supplied by the last request
(later calls supersede earlier ones within the window). -/
theorem debounce_coalescing (t0 : Nat) (a0 : Arg) (rest : List (Nat × Arg)) (fuel : Nat)
    (hchain : chainFrom updateDebounce t0 rest = true)
    (hfuel : 2 * rest.length + 4 ≤ fuel) :
    debRun updateDebounce fuel { timeout := none, timestamp := 0, args := none }
        ((t0, a0) :: rest) =
      [((rest.getLastD (t0, a0)).1 + updateDebounce, (rest.getLastD (t0, a0)).2)] := by
  obtain ⟨m, rfl⟩ : ∃ m, fuel = m + 1 := ⟨fuel - 1, by omega⟩
  have hstep :
      debRun updateDebounce (m + 1) { timeout := none, timestamp := 0, args := none }
          ((t0, a0) :: rest) =
        debRun updateDebounce m
          { timeout := some (t0 + updateDebounce), timestamp := t0, args := some a0 }
          rest := by
    simp [debRun, debCall]
  rw [hstep]
  exact debRun_burst updateDebounce rest m t0 (t0 + updateDebounce) a0 (by omega)
    (by omega) hchain (by omega)

theorem debounce_coalescing_witness :
    chainFrom updateDebounce 0 [(500, 2), (900, 3)] = true ∧
    debRun updateDebounce 10 { timeout := none, timestamp := 0, args := none }
        [(0, 1), (500, 2), (900, 3)] = [(1900, 3)] := by
  refine ⟨by decide, ?_⟩
  have h := debounce_coalescing 0 1 [(500, 2), (900, 3)] 10 (by decide) (by decide)
  simpa [updateDebounce] using h

/-- Claim C4: in every run whose snapshot re-captured after apply differs
by identity from the one captured before apply (both present), the write
is never invoked, the backlog reset is never dispatched, nothing is logged
as an error, and a restart is scheduled iff the completion recheck still
finds patches pending. -/
theorem staleness_guard_skips_write (env : RunEnv) (content : Content)
    (resp : ApplyResponse) (s c : Snap)
    (hr : env.readResult = Except.ok content)
    (hs : env.snapAfterRead = some s)
    (ha : raceApplyTimeout env.applyDuration env.applyResult applyDeadline = Except.ok resp)
    (hc : env.snapAfterApply = some c)
    (hne : s ≠ c) :
    (∀ x, Evt.writeCall x ∉ runPipeline env) ∧
    Evt.dispatchReset ∉ runPipeline env ∧
    (∀ e, Evt.logError e ∉ runPipeline env) ∧
    (Evt.restartCall ∈ runPipeline env ↔ env.snapAtRecheck.isSome) := by
  have hbody : runBody env = (Except.ok (), []) := by
    simp [runBody, hr, hs, ha, hc, hne]
  have hp : runPipeline env = [completionRecheck env.snapAtRecheck] := by
    simp [runPipeline, hbody, catchStep]
  cases hsr : env.snapAtRecheck <;> simp [hp, completionRecheck, hsr]

theorem staleness_guard_skips_write_witness :
    (∀ x, Evt.writeCall x ∉ runPipeline envStale) ∧
    Evt.dispatchReset ∉ runPipeline envStale ∧
    (∀ e, Evt.logError e ∉ runPipeline envStale) ∧
    (Evt.restartCall ∈ runPipeline envStale ↔ (envStale.snapAtRecheck).isSome) :=
  staleness_guard_skips_write envStale 50 { content := 60 } 1 2 rfl rfl rfl rfl
    (by decide)

/-- Claim C5: the apply step races `applyPatchFn` against a 10000-unit
timeout rejecting with kind ETIMEOUT.  Whenever `applyPatchFn` has not
settled by the deadline, the run proceeds as a timeout failure: the chain
rejects with the ETIMEOUT error, which is logged, no write is ever
performed in the run — the eventual late result of `applyPatchFn` is
universally quantified here as part of the environment and never causes a
write — and control proceeds to the completion recheck. -/
theorem timeout_precedence (env : RunEnv) (content : Content) (s : Snap)
    (hr : env.readResult = Except.ok content)
    (hs : env.snapAfterRead = some s)
    (hd : applyDeadline < env.applyDuration) :
    (runBody env).1 = Except.error (error "ETIMEOUT" "Timeout") ∧
    (∀ x, Evt.writeCall x ∉ runPipeline env) ∧
    Evt.logError (error "ETIMEOUT" "Timeout") ∈ runPipeline env ∧
    (runPipeline env).getLast? = some (completionRecheck env.snapAtRecheck) := by
  have hrace : raceApplyTimeout env.applyDuration env.applyResult applyDeadline =
      Except.error (error "ETIMEOUT" "Timeout") := by
    unfold raceApplyTimeout
    rw [if_neg (by omega)]
    rfl
  have hbody : runBody env = (Except.error (error "ETIMEOUT" "Timeout"), []) := by
    simp [runBody, hr, hs, hrace]
  have hp : runPipeline env =
      [Evt.logError (error "ETIMEOUT" "Timeout"), completionRecheck env.snapAtRecheck] := by
    simp [runPipeline, hbody, catchStep, error]
  refine ⟨by rw [hbody], ?_, by simp [hp], by simp [hp]⟩
  intro x
  simp [hp]
  cases hsr : env.snapAtRecheck <;> simp [completionRecheck]

theorem timeout_precedence_witness :
    (runBody envLate).1 = Except.error (error "ETIMEOUT" "Timeout") ∧
    (∀ x, Evt.writeCall x ∉ runPipeline envLate) ∧
    Evt.logError (error "ETIMEOUT" "Timeout") ∈ runPipeline envLate ∧
    (runPipeline envLate).getLast? = some (completionRecheck envLate.snapAtRecheck) :=
  timeout_precedence envLate 50 1 rfl rfl (by decide)

/-- Claim C6: if the snapshot captured immediately after the read is NONE,
the run aborts by rejecting with the ECANCEL cancellation error, as a
normal non-error abort: the write is never invoked, nothing is logged as
an error, and when the completion recheck finds no pending patches the
whole trace is exactly the removal of the handle from the registry. -/
theorem no_patch_short_circuit (env : RunEnv) (content : Content)
    (hr : env.readResult = Except.ok content)
    (hs : env.snapAfterRead = none) :
    (runBody env).1 = Except.error cancelErr ∧
    cancelErr.code = "ECANCEL" ∧
    (∀ x, Evt.writeCall x ∉ runPipeline env) ∧
    (∀ e, Evt.logError e ∉ runPipeline env) ∧
    (env.snapAtRecheck = none → runPipeline env = [Evt.deleteHandle]) := by
  have hbody : runBody env = (Except.error cancelErr, []) := by
    simp [runBody, hr, hs]
  have hp : runPipeline env = [completionRecheck env.snapAtRecheck] := by
    simp [runPipeline, hbody, catchStep, cancelErr, error]
  refine ⟨by rw [hbody], rfl, ?_, ?_, ?_⟩
  · intro x
    cases hsr : env.snapAtRecheck <;> simp [hp, completionRecheck, hsr]
  · intro e
    cases hsr : env.snapAtRecheck <;> simp [hp, completionRecheck, hsr]
  · intro h
    simp [hp, h, completionRecheck]

theorem no_patch_short_circuit_witness :
    (runBody envNoPatch).1 = Except.error cancelErr ∧
    cancelErr.code = "ECANCEL" ∧
    (∀ x, Evt.writeCall x ∉ runPipeline envNoPatch) ∧
    (∀ e, Evt.logError e ∉ runPipeline envNoPatch) ∧
    (envNoPatch.snapAtRecheck = none → runPipeline envNoPatch = [Evt.deleteHandle]) :=
  no_patch_short_circuit envNoPatch 50 rfl rfl

/-- Claim C7: every failure of the chain (read, apply, race or write) that
is not of kind ECANCEL is logged; the chain is recovered at the catch
boundary so nothing propagates to the caller, the completion recheck is
the last thing the run does, and when no patches remain the handle removes
itself from the registry. -/
theorem opaque_failure_liveness (env : RunEnv) (e : Err)
    (hb : (runBody env).1 = Except.error e)
    (hc : e.code ≠ "ECANCEL") :
    pipelineOutcome env = Except.ok () ∧
    Evt.logError e ∈ runPipeline env ∧
    (runPipeline env).getLast? = some (completionRecheck env.snapAtRecheck) ∧
    (env.snapAtRecheck = none → Evt.deleteHandle ∈ runPipeline env) := by
  refine ⟨?_, ?_, ?_, ?_⟩
  · unfold pipelineOutcome
    rw [hb]
  · simp [runPipeline, hb, catchStep, hc]
  · unfold runPipeline
    rw [List.getLast?_concat]
  · intro h
    simp [runPipeline, h, completionRecheck]

theorem opaque_failure_liveness_witness :
    pipelineOutcome envDiskFull = Except.ok () ∧
    Evt.logError (error "ENOSPC" "disk full") ∈ runPipeline envDiskFull ∧
    (runPipeline envDiskFull).getLast? =
      some (completionRecheck envDiskFull.snapAtRecheck) ∧
    (envDiskFull.snapAtRecheck = none → Evt.deleteHandle ∈ runPipeline envDiskFull) :=
  opaque_failure_liveness envDiskFull (error "ENOSPC" "disk full") rfl (by decide)

/-- Claim C8: at the pipeline's catch boundary the chain is always
recovered, so no failure reaches a caller; a failure whose kind is ECANCEL
is never logged, a failure of any other kind is logged, and in both cases
the completion recheck is the last step of the run. -/
theorem ecancel_absorbed (env : RunEnv) (e : Err)
    (hb : (runBody env).1 = Except.error e) :
    pipelineOutcome env = Except.ok () ∧
    (e.code = "ECANCEL" → ∀ x, Evt.logError x ∉ runPipeline env) ∧
    (e.code ≠ "ECANCEL" → Evt.logError e ∈ runPipeline env) ∧
    (runPipeline env).getLast? = some (completionRecheck env.snapAtRecheck) := by
  refine ⟨?_, ?_, ?_, ?_⟩
  · unfold pipelineOutcome
    rw [hb]
  · intro hcode x
    unfold runPipeline
    rw [hb]
    simp [catchStep, hcode]
    refine ⟨runBody_no_logError env x, ?_⟩
    cases hsr : env.snapAtRecheck <;> simp [completionRecheck]
  · intro hcode
    simp [runPipeline, hb, catchStep, hcode]
  · unfold runPipeline
    rw [List.getLast?_concat]

theorem ecancel_absorbed_witness :
    pipelineOutcome envNoPatch = Except.ok () ∧
    (cancelErr.code = "ECANCEL" → ∀ x, Evt.logError x ∉ runPipeline envNoPatch) ∧
    (cancelErr.code ≠ "ECANCEL" → Evt.logError cancelErr ∈ runPipeline envNoPatch) ∧
    (runPipeline envNoPatch).getLast? =
      some (completionRecheck envNoPatch.snapAtRecheck) :=
  ecancel_absorbed envNoPatch cancelErr rfl

/-- Claim C9: `getResourcePatches` returns NONE exactly when the session
for the given tab id does not exist or the session's backlog has no entry
for the resource url (an existing session with an empty backlog for the
resource yields NONE), and otherwise it returns the stored snapshot
value. -/
theorem getResourcePatches_none_iff (store : StoreState) (tabId : Nat) (url : String) :
    (getResourcePatches store tabId url = none ↔
      store.sessions.lookup tabId = none ∨
      ∃ session, store.sessions.lookup tabId = some session ∧
        session.patches.lookup url = none) ∧
    (∀ session snap, store.sessions.lookup tabId = some session →
      session.patches.lookup url = some snap →
      getResourcePatches store tabId url = some snap) := by
  constructor
  · unfold getResourcePatches
    cases h : store.sessions.lookup tabId <;> simp [h]
  · intro session snap h1 h2
    unfold getResourcePatches
    rw [h1]
    simpa using h2

theorem getResourcePatches_none_iff_witness :
    getResourcePatches storeEx 1 "a.css" = some 5 ∧
    getResourcePatches storeEx 2 "a.css" = none ∧
    getResourcePatches storeEx 3 "a.css" = none := by
  refine ⟨?_, ?_, ?_⟩
  · exact (getResourcePatches_none_iff storeEx 1 "a.css").2
      { patches := [("a.css", 5)] } 5 rfl rfl
  · exact (getResourcePatches_none_iff storeEx 2 "a.css").1.mpr
      (Or.inr ⟨{ patches := [] }, rfl, rfl⟩)
  · exact (getResourcePatches_none_iff storeEx 3 "a.css").1.mpr (Or.inl rfl)

/-- Claim C10: in a run that reaches COMMITTING and whose write rejects,
the backlog reset dispatch is issued strictly before the write call (they
are the first two effects, in that order), the chain fails with the write
error, and the drained backlog stays cleared: interpreting the run's
effects over any prior backlog value leaves it empty, because no effect of
the pipeline restores patches. -/
theorem reset_dispatch_precedes_write (env : RunEnv) (content : Content)
    (resp : ApplyResponse) (s : Snap) (we : Err)
    (hr : env.readResult = Except.ok content)
    (hs : env.snapAfterRead = some s)
    (ha : raceApplyTimeout env.applyDuration env.applyResult applyDeadline = Except.ok resp)
    (hc : env.snapAfterApply = some s)
    (hw : env.writeResult = Except.error we) :
    (runPipeline env).take 2 = [Evt.dispatchReset, Evt.writeCall resp.content] ∧
    (runBody env).1 = Except.error we ∧
    (∀ b, backlogAfter b (runPipeline env) = none) := by
  have hbody : runBody env =
      (Except.error we, [Evt.dispatchReset, Evt.writeCall resp.content]) := by
    simp [runBody, hr, hs, ha, hc, hw]
  have hp : runPipeline env =
      Evt.dispatchReset :: Evt.writeCall resp.content ::
        (catchStep (Except.error we) ++ [completionRecheck env.snapAtRecheck]) := by
    simp [runPipeline, hbody]
  refine ⟨by simp [hp], by rw [hbody], ?_⟩
  intro b
  rw [hp]
  simpa [backlogAfter] using backlogAfter_none
    (catchStep (Except.error we) ++ [completionRecheck env.snapAtRecheck])

theorem reset_dispatch_precedes_write_witness :
    (runPipeline envDiskFull).take 2 = [Evt.dispatchReset, Evt.writeCall 60] ∧
    (runBody envDiskFull).1 = Except.error (error "ENOSPC" "disk full") ∧
    (∀ b, backlogAfter b (runPipeline envDiskFull) = none) :=
  reset_dispatch_precedes_write envDiskFull 50 { content := 60 } 1
    (error "ENOSPC" "disk full") rfl rfl rfl rfl rfl

/-- Claim C1 counterexample: with patches present, a request at time 0
starts run 0 at time 1000 (applying until 6100); a second request for the
same key at time 1500, while run 0 is in flight, arms a fresh debounce
timer, and when it fires at 2500 a second pipeline run for the same key
starts while run 0 is still applying — two concurrent read/apply/write
sequences for one key, refuting the at-most-one-in-flight claim. -/
theorem two_runs_in_flight_counterexample :
    (simulate behavC1 5 initState extC1).runs =
      [{ id := 0, fn := 7, stage := Stage.applying 6100 1 }] ∧
    (simulate behavC1 5 initState extC1).log.getLast? =
      some (1500, SysEvt.requested 7) ∧
    (simulate behavC1 7 initState extC1).runs =
      [{ id := 0, fn := 7, stage := Stage.applying 6100 1 },
       { id := 1, fn := 7, stage := Stage.reading 2600 }] := by
  exact ⟨rfl, rfl, rfl⟩

/-- Claim C1 amended: a request for a key whose handle has a pending
debounce timer never starts a run — it only re-arms the debounce (the
timestamp and argument are updated, the in-flight runs and the run counter
are untouched).  The unamended claim fails because a request arriving
after the timer has fired, while the run it launched is still in flight,
arms a new timer that can start a second concurrent run. -/
theorem pending_timer_request_only_rearms (st : SysState) (t : Nat) (fn : Arg) (f : Nat)
    (hh : st.hasHandle = true)
    (ht : st.deb.timeout = some f) :
    (requestUpdateTransaction st t fn).runs = st.runs ∧
    (requestUpdateTransaction st t fn).nextRunId = st.nextRunId ∧
    (requestUpdateTransaction st t fn).deb =
      { timeout := some f, timestamp := t, args := some fn } ∧
    (requestUpdateTransaction st t fn).log = st.log ++ [(t, SysEvt.requested fn)] := by
  simp [requestUpdateTransaction, hh, debCall, ht]

theorem pending_timer_request_only_rearms_witness :
    (requestUpdateTransaction stPending 200 9).runs = stPending.runs ∧
    (requestUpdateTransaction stPending 200 9).nextRunId = stPending.nextRunId ∧
    (requestUpdateTransaction stPending 200 9).deb =
      { timeout := some 400, timestamp := 200, args := some 9 } ∧
    (requestUpdateTransaction stPending 200 9).log =
      stPending.log ++ [(200, SysEvt.requested 9)] :=
  pending_timer_request_only_rearms stPending 200 9 400 rfl rfl

/-- Claim C2 counterexample: a single request at 0 starts run 0 at 1000;
new patches arrive at 1200 while it is applying, so at 1300 the completion
recheck finds patches pending and restarts the transaction — yet the next
run starts only at 2300 = 1300 + 1000, after a further full debounce
delay, refuting the claim that no further debounce delay precedes the next
run. -/
theorem restart_full_debounce_counterexample :
    (simulate behavC2 6 initState extC2).log.getLast? =
      some (1300, SysEvt.restarted 0 7) ∧
    (simulate behavC2 7 initState extC2).log.filter isRunStarted =
      [(1000, SysEvt.runStarted 0 7), (2300, SysEvt.runStarted 1 7)] ∧
    2300 = 1300 + updateDebounce := by
  exact ⟨rfl, rfl, rfl⟩

/-- Claim C2 amended: when the completion recheck finds patches pending,
the machine does restart by re-invoking the debounced entry point with the
same `applyPatchFn` as the finished run, re-entering DEBOUNCING at once —
but the restart arms the debounce timer for a further full quiet period,
so the next run starts no earlier than one quiet period after the
completion (here stated for a completion with no timer already armed). -/
theorem completion_restart_rearms_debounce (st : SysState) (t : Nat) (r : Run) (s : Snap)
    (hb : st.backlog = some s)
    (ht : st.deb.timeout = none) :
    (completionStep st t r).deb =
      { timeout := some (t + updateDebounce), timestamp := t, args := some r.fn } ∧
    (completionStep st t r).log = st.log ++ [(t, SysEvt.restarted r.id r.fn)] ∧
    (completionStep st t r).hasHandle = st.hasHandle := by
  simp [completionStep, hb, debCall, ht]

theorem completion_restart_rearms_debounce_witness :
    (completionStep stRecheck 1300 { id := 0, fn := 7, stage := Stage.writing 1300 }).deb =
      { timeout := some (1300 + updateDebounce), timestamp := 1300, args := some 7 } ∧
    (completionStep stRecheck 1300 { id := 0, fn := 7, stage := Stage.writing 1300 }).log =
      stRecheck.log ++ [(1300, SysEvt.restarted 0 7)] ∧
    (completionStep stRecheck 1300 { id := 0, fn := 7, stage := Stage.writing 1300 }).hasHandle =
      stRecheck.hasHandle :=
  completion_restart_rearms_debounce stRecheck 1300
    { id := 0, fn := 7, stage := Stage.writing 1300 } 2 rfl rfl

end LiveStyle
